import Mathlib

/-!
Verification of the SIR disease-modeling engine
(`Disease Modeling with SIR and SEIR Models/SIRClass.py`).

The Python class `SIRModel` is embedded shallowly over exact rationals:

* `SIRModel.__init__` stores `beta`, `gamma` and `initial_conditions`
  verbatim; the `results` attribute does not exist yet, modelled as
  `Option` being `none`.
* `SIRModel.sir_equations` destructures its state argument `y` as
  `S, I, R = y` (any other length raises `ValueError` in Python,
  modelled as `none`) and returns the derivative triple.
* `SIRModel.simulate` assigns `self.results = odeint(...)`.
  `scipy.integrate.odeint` is an external library; it is modelled from
  the spec (section 4.2) as a general-purpose one-step Runge-Kutta
  integrator (the classical RK4 scheme) over exact rationals,
  producing one state row per requested time point with the initial
  state as the first row.
* `SIRModel.plot_results` and `SIRModel.plot_phase_portrait` read
  `self.results`; the data they pass to the plotting collaborator is
  returned explicitly, and the missing-attribute failure (Python
  `AttributeError` before any `simulate` call) is an `Except.error`.
-/

/-- Failure raised when an accessor reads `self.results` before any
`simulate` call has created it (Python raises `AttributeError`). -/
inductive SIRError where
  | attributeError
deriving DecidableEq

/-- The `SIRModel` class: transmission rate `beta`, recovery rate `gamma`,
the `[S, I, R]` initial conditions, and the trajectory cache `results`,
absent (`none`) until `simulate` assigns it. -/
structure SIRModel where
  beta : ℚ
  gamma : ℚ
  initial_conditions : ℚ × ℚ × ℚ
  results : Option (List (ℚ × ℚ × ℚ))
deriving DecidableEq

/-- Constructor `__init__(self, beta, gamma, initial_conditions)`: stores the
three arguments unchanged; no validation is performed and no `results`
attribute exists yet. -/
def SIRModel.__init__ (beta gamma : ℚ) (initial_conditions : ℚ × ℚ × ℚ) : SIRModel :=
  { beta := beta, gamma := gamma, initial_conditions := initial_conditions, results := none }

/-- `sir_equations(self, y, t)`: destructures `S, I, R = y` (failing for any
other length, modelled as `none`) and returns
`[-beta*S*I, beta*S*I - gamma*I, gamma*I]`; `t` is unused. -/
def SIRModel.sir_equations (m : SIRModel) (y : List ℚ) (t : ℚ) : Option (List ℚ) :=
  match y with
  | [S, I, R] => some [-m.beta * S * I, m.beta * S * I - m.gamma * I, m.gamma * I]
  | _ => none

/-- Componentwise addition of state triples. -/
def add3 (a b : ℚ × ℚ × ℚ) : ℚ × ℚ × ℚ :=
  (a.1 + b.1, a.2.1 + b.2.1, a.2.2 + b.2.2)

/-- Scalar multiplication of a state triple. -/
def smul3 (c : ℚ) (a : ℚ × ℚ × ℚ) : ℚ × ℚ × ℚ :=
  (c * a.1, c * a.2.1, c * a.2.2)

/-- Total population of a state triple: `S + I + R`. -/
def sum3 (a : ℚ × ℚ × ℚ) : ℚ :=
  a.1 + a.2.1 + a.2.2

/-- The vector field as a function on state triples, reading its value
through `sir_equations`; the fallback branch is unreachable because
`sir_equations` always succeeds on three-component states. -/
def sirField (m : SIRModel) (s : ℚ × ℚ × ℚ) (t : ℚ) : ℚ × ℚ × ℚ :=
  match m.sir_equations [s.1, s.2.1, s.2.2] t with
  | some (dS :: dI :: dR :: []) => (dS, dI, dR)
  | _ => (0, 0, 0)

/-- Modelled from the spec: one step of the classical fourth-order
Runge-Kutta scheme, the representative of the "general-purpose ...
explicit Runge-Kutta" solver family that section 4.2 prescribes for the
integrator; the actual solver, `scipy.integrate.odeint`, is an external
library whose code is not part of this repository. -/
def rk4Step (m : SIRModel) (y : ℚ × ℚ × ℚ) (t h : ℚ) : ℚ × ℚ × ℚ :=
  let k1 := sirField m y t
  let k2 := sirField m (add3 y (smul3 (h / 2) k1)) (t + h / 2)
  let k3 := sirField m (add3 y (smul3 (h / 2) k2)) (t + h / 2)
  let k4 := sirField m (add3 y (smul3 h k3)) (t + h)
  add3 y (smul3 (h / 6) (add3 k1 (add3 (smul3 2 k2) (add3 (smul3 2 k3) k4))))

/-- Modelled from the spec: the states at the remaining time points after
the first, each obtained by stepping from the previous time point. -/
def odeintGo (m : SIRModel) (y : ℚ × ℚ × ℚ) (t : ℚ) : List ℚ → List (ℚ × ℚ × ℚ)
  | [] => []
  | t' :: rest =>
    let y' := rk4Step m y t (t' - t)
    y' :: odeintGo m y' t' rest

/-- Modelled from the spec: `odeint(func, y0, t)` of section 4.2 — given the
vector field of the model, the initial state and the time grid, it produces
one state row per time point, the first row being the initial state. -/
def odeint (m : SIRModel) (y0 : ℚ × ℚ × ℚ) (ts : List ℚ) : List (ℚ × ℚ × ℚ) :=
  match ts with
  | [] => []
  | t0 :: rest => y0 :: odeintGo m y0 t0 rest

/-- `simulate(self, t)`: executes `self.results = odeint(self.sir_equations,
self.initial_conditions, t)` — the solver output is assigned to the cache
unconditionally and every other attribute is left unchanged. -/
def SIRModel.simulate (m : SIRModel) (t : List ℚ) : SIRModel :=
  { m with results := some (odeint m m.initial_conditions t) }

/-- `plot_results(self, t)`: reads `S, I, R = self.results.T` and hands the
three aligned series to the plotting collaborator; before any `simulate`
call the `results` attribute does not exist and the access fails. -/
def SIRModel.plot_results (m : SIRModel) (t : List ℚ) :
    Except SIRError (List ℚ × List ℚ × List ℚ) :=
  match m.results with
  | none => Except.error SIRError.attributeError
  | some tr =>
    Except.ok (tr.map (fun s => s.1), tr.map (fun s => s.2.1), tr.map (fun s => s.2.2))

/-- `plot_phase_portrait(self)`: reads `S, I, _ = self.results.T` and hands
the two aligned series (S, I) to the plotting collaborator; before any
`simulate` call the `results` attribute does not exist and the access
fails. -/
def SIRModel.plot_phase_portrait (m : SIRModel) :
    Except SIRError (List ℚ × List ℚ) :=
  match m.results with
  | none => Except.error SIRError.attributeError
  | some tr =>
    Except.ok (tr.map (fun s => s.1), tr.map (fun s => s.2.1))

/-- Evaluating the vector field on an explicit triple. -/
theorem sirField_eval (m : SIRModel) (S I R t : ℚ) :
    sirField m (S, I, R) t =
      (-m.beta * S * I, m.beta * S * I - m.gamma * I, m.gamma * I) := rfl

/-- Population is additive over `add3`. -/
theorem sum3_add3 (a b : ℚ × ℚ × ℚ) : sum3 (add3 a b) = sum3 a + sum3 b := by
  simp [sum3, add3]; ring

/-- Population scales with `smul3`. -/
theorem sum3_smul3 (c : ℚ) (a : ℚ × ℚ × ℚ) : sum3 (smul3 c a) = c * sum3 a := by
  simp [sum3, smul3]; ring

/-- The components of the vector field always sum to zero. -/
theorem sum3_sirField (m : SIRModel) (s : ℚ × ℚ × ℚ) (t : ℚ) :
    sum3 (sirField m s t) = 0 := by
  obtain ⟨S, I, R⟩ := s
  rw [sirField_eval]
  simp [sum3]; ring

/-- A Runge-Kutta step preserves the total population exactly. -/
theorem sum3_rk4Step (m : SIRModel) (y : ℚ × ℚ × ℚ) (t h : ℚ) :
    sum3 (rk4Step m y t h) = sum3 y := by
  simp [rk4Step, sum3_add3, sum3_smul3, sum3_sirField]

/-- The tail of the integration has one row per remaining time point. -/
theorem odeintGo_length (m : SIRModel) (ts : List ℚ) :
    ∀ y t, (odeintGo m y t ts).length = ts.length := by
  induction ts with
  | nil => intro y t; rfl
  | cons t' rest ih =>
    intro y t
    simp [odeintGo, ih]

/-- Every row of the tail of the integration has the population of the
state it started from. -/
theorem odeintGo_sum3 (m : SIRModel) (ts : List ℚ) :
    ∀ y t s, s ∈ odeintGo m y t ts → sum3 s = sum3 y := by
  induction ts with
  | nil => intro y t s hs; simp [odeintGo] at hs
  | cons t' rest ih =>
    intro y t s hs
    simp only [odeintGo, List.mem_cons] at hs
    rcases hs with h | h
    · rw [h, sum3_rk4Step]
    · rw [ih (rk4Step m y t (t' - t)) t' s h, sum3_rk4Step]

/-- The modelled integrator produces one row per time point. -/
theorem odeint_length (m : SIRModel) (y0 : ℚ × ℚ × ℚ) (ts : List ℚ) :
    (odeint m y0 ts).length = ts.length := by
  cases ts with
  | nil => rfl
  | cons t0 rest => simp [odeint, odeintGo_length]

/-- Every row of the modelled integrator's output has the population of the
initial state. -/
theorem odeint_sum3 (m : SIRModel) (y0 : ℚ × ℚ × ℚ) (ts : List ℚ) :
    ∀ s ∈ odeint m y0 ts, sum3 s = sum3 y0 := by
  cases ts with
  | nil => intro s hs; simp [odeint] at hs
  | cons t0 rest =>
    intro s hs
    simp only [odeint, List.mem_cons] at hs
    rcases hs with h | h
    · rw [h]
    · exact odeintGo_sum3 m rest y0 t0 s h

/-- C1: for every state (S, I, R) and every time t, `sir_equations` returns
exactly the derivative triple (-beta*S*I, beta*S*I - gamma*I, gamma*I),
where beta and gamma are the parameters stored at construction. -/
theorem C1_sir_equations_formula (beta gamma S I R t : ℚ) (ic : ℚ × ℚ × ℚ) :
    (SIRModel.__init__ beta gamma ic).sir_equations [S, I, R] t =
      some [-beta * S * I, beta * S * I - gamma * I, gamma * I] := rfl

/-- C3: for every state (S, I, R) and every time t, the three components
returned by `sir_equations` sum exactly to zero. -/
theorem C3_components_sum_zero (m : SIRModel) (S I R t : ℚ) :
    ((m.sir_equations [S, I, R] t).getD []).sum = 0 := by
  simp [SIRModel.sir_equations]

/-- C5: for beta > 0, gamma >= 0 and any state with I >= 0, whenever
S <= gamma / beta the I-component returned by `sir_equations` is <= 0. -/
theorem C5_threshold (beta gamma S I R t : ℚ) (ic : ℚ × ℚ × ℚ)
    (hb : 0 < beta) (hg : 0 ≤ gamma) (hI : 0 ≤ I) (hS : S ≤ gamma / beta) :
    ∀ dS dI dR : ℚ,
      (SIRModel.__init__ beta gamma ic).sir_equations [S, I, R] t = some [dS, dI, dR] →
        dI ≤ 0 := by
  intro dS dI dR h
  simp only [SIRModel.sir_equations, SIRModel.__init__, Option.some.injEq,
    List.cons.injEq, and_true] at h
  obtain ⟨-, hdI, -⟩ := h
  rw [← hdI]
  have hbS : beta * S ≤ gamma := by
    have := (le_div_iff₀ hb).mp hS
    linarith [this]
  nlinarith [mul_nonneg hI (sub_nonneg.mpr hbS)]

/-- Witness for C5 at beta = 1, gamma = 1, S = 1/2, I = 2, R = 0, t = 0:
the hypotheses hold and the returned I-component is -1 <= 0. -/
theorem C5_threshold_witness :
    ((0:ℚ) < 1 ∧ (0:ℚ) ≤ 1 ∧ (0:ℚ) ≤ 2 ∧ (1/2:ℚ) ≤ 1 / 1) ∧ (-1:ℚ) ≤ 0 :=
  ⟨⟨by norm_num, by norm_num, by norm_num, by norm_num⟩,
    C5_threshold 1 1 (1/2) 2 0 0 (1/2, 2, 0) (by norm_num) (by norm_num)
      (by norm_num) (by norm_num) (-1) (-1) 2
      (by norm_num [SIRModel.sir_equations, SIRModel.__init__])⟩

/-- C2: for beta >= 0, gamma >= 0 and non-negative initial conditions
summing to N, every state of the trajectory produced by `simulate`
satisfies S + I + R = N (the modelled integrator works in exact
arithmetic, so the conservation is exact, hence within any tolerance). -/
theorem C2_conservation (beta gamma S0 I0 R0 N : ℚ) (ts : List ℚ)
    (hb : 0 ≤ beta) (hg : 0 ≤ gamma) (hS0 : 0 ≤ S0) (hI0 : 0 ≤ I0) (hR0 : 0 ≤ R0)
    (hN : S0 + I0 + R0 = N) :
    ∀ s ∈ ((SIRModel.__init__ beta gamma (S0, I0, R0)).simulate ts).results.getD [],
      sum3 s = N := by
  intro s hs
  simp only [SIRModel.simulate, Option.getD_some] at hs
  rw [odeint_sum3 _ _ _ s hs]
  simp [SIRModel.__init__, sum3, hN]

/-- Witness for C2 at beta = 3/10, gamma = 1/10, initial conditions
(99/100, 1/100, 0), N = 1, grid [0, 1]: the hypotheses hold and the first
trajectory row has population 1. -/
theorem C2_conservation_witness :
    ((0:ℚ) ≤ 3/10 ∧ (0:ℚ) ≤ 1/10 ∧ (0:ℚ) ≤ 99/100 ∧ (0:ℚ) ≤ 1/100 ∧ (0:ℚ) ≤ 0 ∧
      (99/100 : ℚ) + 1/100 + 0 = 1) ∧
    sum3 (99/100, 1/100, 0) = 1 :=
  ⟨⟨by norm_num, by norm_num, by norm_num, by norm_num, le_refl 0, by norm_num⟩,
    C2_conservation (3/10) (1/10) (99/100) (1/100) 0 1 [0, 1] (by norm_num)
      (by norm_num) (by norm_num) (by norm_num) (le_refl 0) (by norm_num)
      (99/100, 1/100, 0)
      (by simp [SIRModel.simulate, SIRModel.__init__, odeint])⟩

/-- C4: for every non-empty strictly increasing time grid, `simulate`
produces a trajectory with exactly one state vector per time point, whose
first point is the initial conditions supplied at construction. -/
theorem C4_rows (m : SIRModel) (ts : List ℚ) (h1 : ts ≠ [])
    (h2 : List.Chain' (fun a b => a < b) ts) :
    (((m.simulate ts).results.getD []).length = ts.length) ∧
    (((m.simulate ts).results.getD []).head? = some m.initial_conditions) := by
  cases ts with
  | nil => exact absurd rfl h1
  | cons t0 rest =>
    constructor
    · simp [SIRModel.simulate, odeint_length]
    · simp [SIRModel.simulate, odeint]

/-- Witness for C4 on the model (3/10, 1/10, (1, 0, 0)) and the grid
[0, 1]: the grid is non-empty and strictly increasing, the trajectory has
2 rows and starts at (1, 0, 0). -/
theorem C4_rows_witness :
    (([0, 1] : List ℚ) ≠ [] ∧ List.Chain' (fun a b => a < b) ([0, 1] : List ℚ)) ∧
    ((((SIRModel.__init__ (3/10) (1/10) (1, 0, 0)).simulate [0, 1]).results.getD
        []).length = 2 ∧
      (((SIRModel.__init__ (3/10) (1/10) (1, 0, 0)).simulate [0, 1]).results.getD
        []).head? = some (1, 0, 0)) :=
  ⟨⟨by simp, by norm_num⟩,
    C4_rows (SIRModel.__init__ (3/10) (1/10) (1, 0, 0)) [0, 1] (by simp)
      (by norm_num)⟩

/-- C6: on a freshly constructed model (no `simulate` call yet), both
trajectory accessors fail explicitly with the missing-attribute error
instead of returning any default, empty, stale or zeroed data. -/
theorem C6_accessors_fail_before_simulate (beta gamma : ℚ) (ic : ℚ × ℚ × ℚ)
    (t : List ℚ) :
    (SIRModel.__init__ beta gamma ic).plot_results t =
        Except.error SIRError.attributeError ∧
    (SIRModel.__init__ beta gamma ic).plot_phase_portrait =
        Except.error SIRError.attributeError :=
  ⟨rfl, rfl⟩

/-- C7 counterexample: the stored state is not left unchanged by a
further `simulate` call — `simulate` overwrites the previously cached
trajectory unconditionally (there is no code path on which it is kept), so
a model that already holds a 2-row trajectory holds a different, 1-row one
after the next call; no failure value is ever reported to the caller. -/
theorem C7_cached_trajectory_replaced_counterexample :
    (((SIRModel.__init__ (3/10) (1/10) (99/100, 1/100, 0)).simulate
        [0, 1]).simulate [0]).results ≠
      ((SIRModel.__init__ (3/10) (1/10) (99/100, 1/100, 0)).simulate
        [0, 1]).results := by
  intro h
  have h2 := congrArg (fun o => (Option.getD o []).length) h
  simp [SIRModel.simulate, odeint_length] at h2

/-- C7 amended: `simulate` is total — it never reports a failure to the
caller — and its whole effect is to overwrite the cached trajectory with
the solver output, leaving beta, gamma and the initial conditions
unchanged and discarding any previously cached trajectory. -/
theorem C7_simulate_total_overwrites (m : SIRModel) (ts : List ℚ) :
    m.simulate ts = { m with results := some (odeint m m.initial_conditions ts) } :=
  rfl

/-- C8 counterexample: construction with negative beta, gamma and initial
conditions does not fail — it returns an ordinary model storing exactly
those values, so no InvalidInput error is raised at construction time. -/
theorem C8_negative_construction_counterexample :
    (SIRModel.__init__ (-1) (-2) (-3, -4, -5)).beta = -1 ∧
    (SIRModel.__init__ (-1) (-2) (-3, -4, -5)).gamma = -2 ∧
    (SIRModel.__init__ (-1) (-2) (-3, -4, -5)).initial_conditions = (-3, -4, -5) :=
  ⟨rfl, rfl, rfl⟩

/-- C8 amended: the constructor performs no validation at all — any beta,
gamma and initial conditions, including negative ones, are stored
unchanged and construction always succeeds. -/
theorem C8_no_validation (beta gamma : ℚ) (ic : ℚ × ℚ × ℚ) :
    SIRModel.__init__ beta gamma ic =
      { beta := beta, gamma := gamma, initial_conditions := ic, results := none } :=
  rfl

/-- C9: `simulate` never mutates beta, gamma or the initial conditions; it
modifies only the cached trajectory, which it fully replaces with the new
solver output. -/
theorem C9_frame (m : SIRModel) (ts : List ℚ) :
    (m.simulate ts).beta = m.beta ∧
    (m.simulate ts).gamma = m.gamma ∧
    (m.simulate ts).initial_conditions = m.initial_conditions ∧
    (m.simulate ts).results = some (odeint m m.initial_conditions ts) :=
  ⟨rfl, rfl, rfl, rfl⟩

/-- C10: `sir_equations` succeeds exactly on states with three components
(the destructuring of y fails for every other length), and on a
three-component state it returns a three-element derivative list. -/
theorem C10_arity (m : SIRModel) (t : ℚ) :
    (∀ y : List ℚ, (m.sir_equations y t).isSome = true ↔ y.length = 3) ∧
    (∀ S I R : ℚ, ∃ l, m.sir_equations [S, I, R] t = some l ∧ l.length = 3) := by
  constructor
  · intro y
    match y with
    | [] => simp [SIRModel.sir_equations]
    | [a] => simp [SIRModel.sir_equations]
    | [a, b] => simp [SIRModel.sir_equations]
    | [a, b, c] => simp [SIRModel.sir_equations]
    | a :: b :: c :: d :: rest => simp [SIRModel.sir_equations]
  · intro S I R
    exact ⟨_, rfl, rfl⟩

/-- Witness for C10: on a concrete model, a 2-element state is rejected
while a 3-element state is accepted. -/
theorem C10_arity_witness :
    ((SIRModel.__init__ 1 1 (0, 0, 0)).sir_equations [1, 2] 0).isSome = true ↔
      ([1, 2] : List ℚ).length = 3 :=
  (C10_arity (SIRModel.__init__ 1 1 (0, 0, 0)) 0).1 [1, 2]
